import Mathlib

/-!
Verification development for the Nest module registry
(source: src/nest/modules.py).

The Python data structures are shallowly embedded:
Python dicts become insertion-ordered association lists over String keys,
runtime values become the inductive `Value`, type annotations become `Ty`,
exceptions become the inductive `Exc` carried in `Except`.
External stdlib collaborators (the `re` regex engine and `fnmatch` glob
engine) are abstracted as function parameters of the query operation;
helpers from `nest.utils` that are not part of the given source
(`merge_dict`, `is_annotation_matched`, `encode_id`) are modelled and
marked as such in their doc comments.
-/

namespace NestSpec

/-- A Python dict with string keys, as an insertion-ordered association list.
Dicts built by the embedded code always have unique keys. -/

abbrev Dict (α : Type) := List (String × α)

/-- Python dict lookup: value of the first pair with the given key. -/
def dictGet {α : Type} : Dict α → String → Option α
  | [], _ => none
  | p :: rest, k => if p.1 == k then some p.2 else dictGet rest k

/-- Python key membership test. -/
def dictMem {α : Type} (d : Dict α) (k : String) : Bool :=
  (dictGet d k).isSome

/-- Python dict assignment `d[k] = v`: replace the first binding of `k`
in place, or append a new binding at the end. -/
def dictSet {α : Type} : Dict α → String → α → Dict α
  | [], k, v => [(k, v)]
  | p :: rest, k, v => if p.1 == k then (k, v) :: rest else p :: dictSet rest k v

/-- Python `del d[k]` (on unique-keyed dicts): drop the binding of `k`. -/
def dictRemove {α : Type} (d : Dict α) (k : String) : Dict α :=
  d.filter (fun p => !(p.1 == k))

/-- Python `d.keys()` in order. -/
def dictKeys {α : Type} (d : Dict α) : List String :=
  d.map (fun p => p.1)

/-- Modelled from the spec: `U.merge_dict(d, e, union=True)` from the
`nest.utils` helper module, which is not part of the given source.  The
spec describes it as merging bindings so that the bindings of `e` win:
each binding of `e` is written into `d` in order. -/
def merge_dict {α : Type} (d e : Dict α) : Dict α :=
  e.foldl (fun acc p => dictSet acc p.1 p.2) d

/-- Removal of a list of keys, modelling the loop
`for key in old_ids: if key in nest_modules: del nest_modules[key]`. -/
def removeKeys {α : Type} (d : Dict α) (ks : List String) : Dict α :=
  ks.foldl (fun acc k => dictRemove acc k) d

/-- Python `s.startswith(pre)`, over the character content. -/
def strStartsWith (s pre : String) : Bool :=
  pre.data.isPrefixOf s.data

/-- Python slicing `s[n:]`, over the character content. -/
def strDrop (s : String) (n : Nat) : String :=
  String.mk (s.data.drop n)

/-- Python `s.lower()`. -/
def strLower (s : String) : String :=
  String.mk (s.data.map Char.toLower)

/-- Python `s.replace(c, r)` for a single-character pattern, the only form
the source uses. -/
def strReplaceChar (s : String) (c r : Char) : String :=
  String.mk (s.data.map (fun x => if x == c then r else x))

/-- Python emptiness test on a string. -/
def strIsEmpty (s : String) : Bool :=
  s.data.isEmpty

/-- Type annotations as they appear on Nest module parameters and returns.
`tContext` stands for the `Context` capability class or any subclass of it
(`issubclass(annotation, Context)` in the source). -/
inductive Ty
  | tInt
  | tStr
  | tBool
  | tContext
  | tOther (tag : String)
deriving DecidableEq

/-- Python runtime values as far as the claims need them.  `vNone` is the
Python `None` singleton, `vContext` an empty `Context` instance,
`vModule` summarises a nested Nest module value by its name and declared
return annotation, `vOther` any other object. -/
inductive Value
  | vNone
  | vInt (n : Int)
  | vStr (s : String)
  | vBool (b : Bool)
  | vContext
  | vModule (mname : String) (ret : Option Ty)
  | vOther (tag : String)
deriving DecidableEq

/-- Python truthiness of a value, as used by
`if resolved_params.pop('delay_resolve', None):`. -/
def truthy : Value → Bool
  | Value.vNone => false
  | Value.vInt n => !(n == 0)
  | Value.vStr s => !(strIsEmpty s)
  | Value.vBool b => b
  | Value.vContext => true
  | Value.vModule _ _ => true
  | Value.vOther _ => true

/-- Truthiness of an optional value; `none` models the `None` default of
`dict.pop`. -/
def truthyOpt : Option Value → Bool
  | none => false
  | some v => truthy v

/-- Modelled from the spec: `U.is_annotation_matched(value, annotation)`
from `nest.utils`, which is not part of the given source.  The spec says a
provided value must satisfy the type constraint of its parameter, with the
allowance that a value which is itself an Entry with a compatible declared
interface also satisfies the constraint. -/
def is_annotation_matched : Value → Ty → Bool
  | Value.vInt _, Ty.tInt => true
  | Value.vStr _, Ty.tStr => true
  | Value.vBool _, Ty.tBool => true
  | Value.vContext, Ty.tContext => true
  | Value.vModule _ r, t => r == some t
  | _, _ => false

/-- Matching against an optional annotation (`none` models the absent
annotation `inspect.Parameter.empty`). -/
def annMatchedOpt (v : Value) : Option Ty → Bool
  | some t => is_annotation_matched v t
  | none => false

/-- Whether a value is a Nest module instance
(`issubclass(type(resolved), NestModule)` in the source). -/
def isModuleVal : Value → Bool
  | Value.vModule _ _ => true
  | _ => false

/-- A parameter descriptor of `inspect.signature`: name, annotation
(`none` = unannotated), default (`none` = no default). -/
structure Param where
  name : String
  ann : Option Ty
  default : Option Value
deriving DecidableEq

/-- A signature: ordered parameters plus return annotation. -/
structure Sig where
  parameters : List Param
  ret : Option Ty
deriving DecidableEq

/-- The parameter names of a signature, in declared order
(`self.sig.parameters.keys()`). -/
def sigNames (s : Sig) : List String :=
  s.parameters.map Param.name

/-- A Python callable: its `__name__`, signature, `__doc__` (`none` when
the docstring is absent or not a string) and behaviour.  `impl` models the
function body as a pure map from the full keyword-argument assignment
(after Python fills in declared defaults) to the returned value. -/
structure Func where
  name : String
  sig : Sig
  doc : Option String
  impl : Dict Value → Value

/-- The embedded exception values.  Constructor names encode the Python
exception class and the message family raised in the source:
`unexpectedParams`, `typeMismatch`, `positionalCount`, `multipleValues`
and `returnTypeError` are `TypeError`s; `missingRequired`, `defMissingDoc`
and `lookupFailed` are `KeyError`s; `defUnannotatedParam`,
`defIncompatibleDefault` and `defUnannotatedReturn` are the registration
`TypeError`s; `pyUnexpectedKw` and `pyMissingArg` are the `TypeError`s
Python itself raises when the keyword application `self.func(**resolved)`
does not fit the callable signature. -/
inductive Exc
  | unexpectedParams (names : List String) (mname : String)
  | missingRequired (pname mname : String)
  | typeMismatch (pname mname : String) (gotModule : Bool)
  | positionalCount (mname : String) (expected got : Nat)
  | multipleValues (mname pname : String)
  | returnTypeError (mname : String)
  | defUnannotatedParam (pname mname : String)
  | defIncompatibleDefault (pname mname : String)
  | defUnannotatedReturn (mname : String)
  | defMissingDoc (mname : String)
  | lookupFailed (msg : String)
  | pyUnexpectedKw (mname : String)
  | pyMissingArg (mname : String)
  | indexError
  | notImplErr
deriving DecidableEq

/-- Which embedded exceptions are Python `KeyError`s (the class caught by
the `except KeyError` clause of `NestModule.__call__`). -/
def isKeyError : Exc → Bool
  | Exc.missingRequired _ _ => true
  | Exc.defMissingDoc _ => true
  | Exc.lookupFailed _ => true
  | _ => false

/-- Whether the message of the exception contains the substring
`Nest module`, as tested by `'Nest module' in str(exc_info)`.  The value
follows the format strings of the source: the missing-required message is
`The required param ... of Nest module ... is missing.`, the lookup
messages all name a `Nest module`, while the documentation message is
`Documentation of module ... is missing.` and does not contain it. -/
def msgHasNestModule : Exc → Bool
  | Exc.defMissingDoc _ => false
  | Exc.pyUnexpectedKw _ => false
  | Exc.pyMissingArg _ => false
  | Exc.indexError => false
  | Exc.notImplErr => false
  | _ => true

/-- A registered Nest module (an Entry): the wrapped callable, the
`__doc__` of its dynamically created class, the metadata dict and the
resolved-parameter dict (`self.params`). -/
structure NestModule where
  func : Func
  doc : Option String
  meta : Dict Value
  params : Dict Value

/-- The context auto-binding block of `NestModule.__init__`:

```
for k, v in self.sig.parameters.items():
    if k =='ctx' and issubclass(v.annotation, Context):
        self.params[k] = v.annotation()
    break
```

The `break` sits at loop-body level, so only the first parameter is ever
inspected; the bound value is a fresh empty instance of the annotation
class, and the default of the parameter is not consulted. -/
def ctxAutoBind (s : Sig) (params : Dict Value) : Dict Value :=
  match s.parameters with
  | [] => params
  | p :: _ =>
    if p.name == "ctx" && p.ann == some Ty.tContext then
      dictSet params p.name Value.vContext
    else
      params

/-- The state-building part of `NestModule.__init__` (before
`_check_definition` runs): copy the metadata and parameter dicts into
fresh dicts via `merge_dict(dict(), ..., union=True)` and apply the
context auto-binding. -/
def mkModule (f : Func) (doc : Option String) (meta params : Dict Value) :
    NestModule :=
  { func := f
    doc := doc
    meta := merge_dict [] meta
    params := ctxAutoBind f.sig (merge_dict [] params) }

/-- The parameter loop of `NestModule._check_definition`: every parameter
must be annotated and every default must match its own annotation. -/
def checkDefParams (mname : String) : List Param → Except Exc Unit
  | [] => Except.ok ()
  | p :: rest =>
    match p.ann with
    | none => Except.error (Exc.defUnannotatedParam p.name mname)
    | some t =>
      match p.default with
      | some d =>
        if is_annotation_matched d t then checkDefParams mname rest
        else Except.error (Exc.defIncompatibleDefault p.name mname)
      | none => checkDefParams mname rest

/-- `NestModule._check_definition`: parameter annotations and defaults,
then the return annotation, then the documentation
(`getattr(self, '__doc__', None) is None`). -/
def check_definition (m : NestModule) : Except Exc Unit :=
  match checkDefParams m.func.name m.func.sig.parameters with
  | Except.error e => Except.error e
  | Except.ok _ =>
    match m.func.sig.ret with
    | none => Except.error (Exc.defUnannotatedReturn m.func.name)
    | some _ =>
      match m.doc with
      | none => Except.error (Exc.defMissingDoc m.func.name)
      | some _ => Except.ok ()

/-- `NestModule.__init__`: build the state, then `_check_definition`. -/
def initModule (f : Func) (doc : Option String) (meta params : Dict Value) :
    Except Exc NestModule :=
  let m := mkModule f doc meta params
  match check_definition m with
  | Except.error e => Except.error e
  | Except.ok _ => Except.ok m

/-- `NestModule.clone(params)`: `type(self)(self.func, self.meta, params)`.
The dynamically created class carries the baked-in `__doc__`, and the
constructor of a module that already passed `_check_definition` passes it
again, so the clone is the pure rebuild. -/
def cloneM (m : NestModule) (params : Dict Value) : NestModule :=
  mkModule m.func m.doc m.meta params

/-- `ModuleManager._register(...)` applied to a callable: the metadata is
appended to the docstring (`func.__doc__ + '\n' + yaml(meta)` when the
docstring is a string, `None` otherwise) and baked into a fresh
`NestModule` subclass, then the constructor runs.  `yamlText` stands for
`U.yaml_format(nest_meta)`, whose exact rendering is irrelevant here. -/
def register (f : Func) (nest_meta : Dict Value) (yamlText : String) :
    Except Exc NestModule :=
  let doc := match f.doc with
    | some d => some (d ++ "\n" ++ (if nest_meta.isEmpty then "" else yamlText))
    | none => none
  initModule f doc nest_meta []

/-- The unexpected keys of a provided dict:
`set(params.keys()) - set(self.sig.parameters.keys())`.  The embedding
keeps them in key order; the provided dicts have unique keys, so the list
has the same members as the Python set (the set iteration order only
affects the error message). -/
def unexpectedKeys (s : Sig) (d : Dict Value) : List String :=
  (dictKeys d).filter (fun k => !((sigNames s).contains k))

/-- Python `len(', '.join(l)) > 0` over the distinct unexpected names:
false for the empty collection and for a sole empty-string name, true
otherwise. -/
def pyJoinNonempty : List String → Bool
  | [] => false
  | [s] => !(strIsEmpty s)
  | _ :: _ :: _ => true

/-- The per-parameter loop of `NestModule._check_params`:
`resolved = params.get(k)`; a `None` result (key absent or value `None`)
requires a default, any other value must match the annotation. -/
def checkParamsLoop (mname : String) (d : Dict Value) :
    List Param → Except Exc Unit
  | [] => Except.ok ()
  | p :: rest =>
    match dictGet d p.name with
    | none =>
      if p.default.isSome then checkParamsLoop mname d rest
      else Except.error (Exc.missingRequired p.name mname)
    | some v =>
      if v == Value.vNone then
        if p.default.isSome then checkParamsLoop mname d rest
        else Except.error (Exc.missingRequired p.name mname)
      else if annMatchedOpt v p.ann then checkParamsLoop mname d rest
      else Except.error (Exc.typeMismatch p.name mname (isModuleVal v))

/-- `NestModule._check_params`: the joined unexpected-name test, then the
per-parameter loop. -/
def check_params (m : NestModule) (d : Dict Value) : Except Exc Unit :=
  if pyJoinNonempty (unexpectedKeys m.func.sig d) then
    Except.error (Exc.unexpectedParams (unexpectedKeys m.func.sig d) m.func.name)
  else
    checkParamsLoop m.func.name d m.func.sig.parameters

/-- `NestModule._check_returns`. -/
def check_returns (m : NestModule) (v : Value) : Except Exc Unit :=
  if annMatchedOpt v m.func.sig.ret then Except.ok ()
  else Except.error (Exc.returnTypeError m.func.name)

/-- Python filling of declared defaults when a callable is applied with
keyword arguments: every parameter without a provided value receives its
declared default. -/
def applyDefaultsLoop : List Param → Dict Value → Dict Value
  | [], d => d
  | p :: rest, d =>
    if dictMem d p.name then applyDefaultsLoop rest d
    else
      match p.default with
      | some v => applyDefaultsLoop rest (dictSet d p.name v)
      | none => applyDefaultsLoop rest d

/-- Default filling over a whole signature. -/
def applyDefaults (s : Sig) (d : Dict Value) : Dict Value :=
  applyDefaultsLoop s.parameters d

/-- The keyword application `self.func(**resolved)`: Python itself raises
a `TypeError` when a provided keyword is not a declared parameter or when
a parameter without a default has no value; otherwise the body runs on
the assignment completed with the declared defaults. -/
def invoke (f : Func) (resolved : Dict Value) : Except Exc Value :=
  if (dictKeys resolved).any (fun k => !((sigNames f.sig).contains k)) then
    Except.error (Exc.pyUnexpectedKw f.name)
  else if f.sig.parameters.any
      (fun p => p.default == none && !(dictMem resolved p.name)) then
    Except.error (Exc.pyMissingArg f.name)
  else
    Except.ok (f.impl (applyDefaults f.sig resolved))

/-- The ordered names of the parameters that positional arguments map
onto: neither already resolved nor defaulted (`expected_param_names`). -/
def expectedPositional (m : NestModule) : List String :=
  ((m.func.sig.parameters.filter
    (fun p => !(dictMem m.params p.name) && p.default == none)).map Param.name)

/-- The positional-assignment loop: each positional value is bound to the
next expected name, clashing with an explicit keyword is a `TypeError`. -/
def assignPositional (mname : String) :
    List (String × Value) → Dict Value → Except Exc (Dict Value)
  | [], kw => Except.ok kw
  | (k, v) :: rest, kw =>
    if dictMem kw k then Except.error (Exc.multipleValues mname k)
    else assignPositional mname rest (dictSet kw k v)

/-- The positional-argument block of `NestModule.__call__`. -/
def bindPositional (m : NestModule) (args : List Value) (kwargs : Dict Value) :
    Except Exc (Dict Value) :=
  if args.isEmpty then Except.ok kwargs
  else
    let expected := expectedPositional m
    if args.length ≠ expected.length then
      Except.error (Exc.positionalCount m.func.name expected.length args.length)
    else
      assignPositional m.func.name (expected.zip args) kwargs

/-- `merge_dict(dict(), self.params); merge_dict(..., kwargs)`: call-time
values win. -/
def mergedParams (m : NestModule) (kwargs : Dict Value) : Dict Value :=
  merge_dict (merge_dict [] m.params) kwargs

/-- Result of a call: a returned value, or a further-bindable clone from
the deferred-resolution path. -/
inductive CallResult
  | ret (v : Value)
  | deferred (m : NestModule)

/-- The validate-and-run core shared by both branches of `__call__`. -/
def checkAndInvoke (m : NestModule) (resolved : Dict Value) :
    Except Exc Value :=
  match check_params m resolved with
  | Except.error e => Except.error e
  | Except.ok _ => invoke m.func resolved

/-- The return-type check and final result of `__call__`. -/
def afterReturns (m : NestModule) (returns : Value) : Except Exc CallResult :=
  match check_returns m returns with
  | Except.error e => Except.error e
  | Except.ok _ => Except.ok (CallResult.ret returns)

/-- `NestModule.__call__`: positional binding, merging, the
`delay_resolve` pop, then either the guarded try/except branch (a
`KeyError` whose message mentions `Nest module` yields a clone carrying
the merged values) or the strict branch. -/
def NestModule.call (m : NestModule) (args : List Value) (kwargs : Dict Value) :
    Except Exc CallResult :=
  match bindPositional m args kwargs with
  | Except.error e => Except.error e
  | Except.ok kw =>
    let resolved0 := mergedParams m kw
    let flag := dictGet resolved0 "delay_resolve"
    let resolved := dictRemove resolved0 "delay_resolve"
    if truthyOpt flag then
      match checkAndInvoke m resolved with
      | Except.ok returns => afterReturns m returns
      | Except.error e =>
        if isKeyError e && msgHasNestModule e then
          Except.ok (CallResult.deferred (cloneM m resolved))
        else Except.error e
    else
      match checkAndInvoke m resolved with
      | Except.ok returns => afterReturns m returns
      | Except.error e => Except.error e

/-- Modelled from the spec: `U.encode_id(namespace, name)` from
`nest.utils`, which is not part of the given source.  The id joins the
namespace and the short name; the docstring example `$nest/optimizer` in
`ModuleManager.__getitem__` fixes the separator. -/
def encode_id (ns key : String) : String :=
  ns ++ "/" ++ key

/-- A top-level binding of an executed python module: either a Nest
module instance (`type(val).__name__ == 'NestModule'`) or anything
else. -/
inductive PyBinding
  | nestMod (m : NestModule)
  | other

/-- `ModuleManager._import_nest_modules_from_py_module`: walk the module
dict in order; every non-underscore Nest module binding is registered
under `encode_id namespace name` unless that id is already present (a
duplicate alert is emitted and the binding is dropped).  Returns the
updated table and the list of imported ids. -/
def importFromPyModule (ns : String) :
    List (String × PyBinding) → Dict NestModule → List String →
    Dict NestModule × List String
  | [], nm, ids => (nm, ids)
  | (key, b) :: rest, nm, ids =>
    match b with
    | PyBinding.nestMod m =>
      if !(strStartsWith key "_") then
        let module_id := encode_id ns key
        if dictMem nm module_id then
          importFromPyModule ns rest nm ids
        else
          importFromPyModule ns rest (dictSet nm module_id m) (ids ++ [module_id])
      else
        importFromPyModule ns rest nm ids
    | PyBinding.other => importFromPyModule ns rest nm ids

/-- The state a source-file load acts on: the source-unit records
(`py_modules`, id to modified time and produced ids; the opaque
`__spec__` execution handle of the record triple is not modelled) and the
Entry flat map (`nest_modules`). -/
structure LoaderState where
  py_modules : Dict (Nat × List String)
  nest_modules : Dict NestModule

/-- The outcome of `spec_from_file_location` plus
`spec.loader.exec_module`: no spec, an exception during execution
(caught, reported via `alert_msg`, never propagated), or a successful run
yielding the ordered `__dict__` bindings of the executed module. -/
inductive ExecOutcome
  | specNone
  | failure
  | success (bindings : List (String × PyBinding))

/-- The body of `_import_nest_modules_from_file` once the skip test has
passed: on failure only an alert is emitted; on success the previously
produced ids (when this is a reload) are removed, the new bindings are
harvested, and the unit record is rewritten when at least one id was
imported. -/
def loadFileBody (uid : String) (ts : Nat) (ns : String) (st : LoaderState)
    (outcome : ExecOutcome) (reloadIds : Option (List String)) : LoaderState :=
  match outcome with
  | ExecOutcome.specNone => st
  | ExecOutcome.failure => st
  | ExecOutcome.success bs =>
    let base := match reloadIds with
      | some ids => removeKeys st.nest_modules ids
      | none => st.nest_modules
    let res := importFromPyModule ns bs base []
    { py_modules :=
        if res.2.isEmpty then st.py_modules
        else dictSet st.py_modules uid (ts, res.2)
      nest_modules := res.1 }

/-- `ModuleManager._import_nest_modules_from_file` for a file with unit id
`uid` and modified time `ts`: a unit already recorded with a modified
time at least `ts` is skipped; otherwise the file is (re-)executed with
the given outcome. -/
def loadFile (uid : String) (ts : Nat) (ns : String) (st : LoaderState)
    (outcome : ExecOutcome) : LoaderState :=
  match dictGet st.py_modules uid with
  | some prev =>
    if ts ≤ prev.1 then st
    else loadFileBody uid ts ns st outcome (some prev.2)
  | none => loadFileBody uid ts ns st outcome none

/-- The first harvestable binding of an executed module for a given id:
the first non-underscore Nest module binding whose encoded id is `k`. -/
def firstNestBinding (ns : String) (k : String) :
    List (String × PyBinding) → Option NestModule
  | [] => none
  | (key, b) :: rest =>
    match b with
    | PyBinding.nestMod m =>
      if !(strStartsWith key "_") && encode_id ns key == k then some m
      else firstNestBinding ns k rest
    | PyBinding.other => firstNestBinding ns k rest

/-- Result of a successful catalog query: the returned module and whether
the non-fatal multiple-match warning was emitted. -/
structure QueryHit where
  found : NestModule
  warned : Bool

/-- Table lookup for a key known to come from the table itself
(`self.nest_modules[matches[0]]`); the fallback is unreachable there. -/
def getStored (nm : Dict NestModule) (k : String) : NestModule :=
  match dictGet nm k with
  | some m => m
  | none =>
    { func := { name := "", sig := { parameters := [], ret := none },
                doc := none, impl := fun _ => Value.vNone }
      doc := none, meta := [], params := [] }

/-- `ModuleManager.__getitem__`: the three query modes.  The stdlib
engines are passed in as functions: `rmatch pat id` models
`re.compile(pat).match(id)` succeeding and `gmatch pat id` models
`fnmatch.fnmatch(id, pat)`.  The returned module is always
`stored.clone()`. -/
def getitem (nm : Dict NestModule) (rmatch gmatch : String → String → Bool)
    (key : String) : Except Exc QueryHit :=
  if strStartsWith key "$" then
    let k := strDrop key 1
    match dictGet nm k with
    | some m => Except.ok { found := cloneM m [], warned := false }
    | none => Except.error (Exc.lookupFailed k)
  else if strStartsWith key "r/" then
    let pat := strDrop key 2
    match (dictKeys nm).filter (rmatch pat) with
    | [] => Except.error (Exc.lookupFailed pat)
    | k :: rest =>
      Except.ok { found := cloneM (getStored nm k) [], warned := !rest.isEmpty }
  else
    match key.toList with
    | [] => Except.error Exc.indexError
    | c :: _ =>
      let key2 := if c == '*' then key else "*" ++ key
      match (dictKeys nm).filter (gmatch key2) with
      | [] => Except.error (Exc.lookupFailed key2)
      | k :: rest =>
        Except.ok { found := cloneM (getStored nm k) [], warned := !rest.isEmpty }

/-- `ModuleManager._format_namespace`:
`src.lower().replace('-', '_').replace('.', '_')`. -/
def format_namespace (src : String) : String :=
  strReplaceChar (strReplaceChar (strLower src) '-' '_') '.' '_'

/-- `os.path.basename` for the already-normalized absolute paths the
installer works on: the component after the last slash. -/
def basename (p : String) : String :=
  String.mk ((p.data.reverse.takeWhile (fun c => !(c == '/'))).reverse)

/-- The namespace-name derivation
`namespace or ModuleManager._format_namespace(os.path.basename(path))`:
a `None` or empty given name falls back to the formatted base name. -/
def derive_namespace (path : String) : Option String → String
  | some s => if strIsEmpty s then format_namespace (basename path) else s
  | none => format_namespace (basename path)

/-- `ModuleManager._install_namespaces_from_path` acting on the persisted
`SEARCH_PATHS` mapping.  The `path` argument stands for the result of
`os.path.abspath(path)` (an external filesystem call).  The result pairs
the (possibly updated, then saved) mapping with whether the duplicate
alert was emitted instead of installing. -/
def install_namespaces_from_path (search_paths : Dict String) (path : String)
    (nso : Option String) : Dict String × Bool :=
  let ns := derive_namespace path nso
  match search_paths.find? (fun p => p.1 == ns || p.2 == path) with
  | some _ => (search_paths, true)
  | none => (dictSet search_paths ns path, false)

/-- A store of Python dict objects, for the aliasing claim about clones:
cells are addressed by allocation index. -/
structure Store where
  cells : List (Dict Value)

/-- Allocate a fresh dict object. -/
def Store.alloc (s : Store) (d : Dict Value) : Store × Nat :=
  ({ cells := s.cells ++ [d] }, s.cells.length)

/-- Read a dict object. -/
def Store.read (s : Store) (r : Nat) : Dict Value :=
  s.cells.getD r []

/-- Mutate one key of a dict object in place (`m.params[k] = v`). -/
def Store.writeKey (s : Store) (r : Nat) (k : String) (v : Value) : Store :=
  { cells := s.cells.set r (dictSet (s.cells.getD r []) k v) }

/-- A Nest module whose `meta` and `params` dicts live in the store, for
reasoning about object identity. -/
structure RNestModule where
  func : Func
  doc : Option String
  metaRef : Nat
  paramsRef : Nat

/-- The store-level constructor: `NestModule.__init__` allocates fresh
dicts via `merge_dict(dict(), ...)` for both the metadata and the
resolved parameters, and applies the context auto-binding to the fresh
parameter dict. -/
def initRef (s : Store) (f : Func) (doc : Option String)
    (metaD paramsD : Dict Value) : Store × RNestModule :=
  let am := s.alloc (merge_dict [] metaD)
  let ap := am.1.alloc (ctxAutoBind f.sig (merge_dict [] paramsD))
  (ap.1, { func := f, doc := doc, metaRef := am.2, paramsRef := ap.2 })

/-- The store-level clone: `type(self)(self.func, self.meta, params)`
reads the metadata content of the original and runs the constructor. -/
def cloneRef (s : Store) (m : RNestModule) (paramsD : Dict Value) :
    Store × RNestModule :=
  initRef s m.func m.doc (s.read m.metaRef) paramsD

/-- A parameter passes the `_check_params` loop for the provided dict. -/
def paramFine (d : Dict Value) (p : Param) : Bool :=
  match dictGet d p.name with
  | none => p.default.isSome
  | some v =>
    if v == Value.vNone then p.default.isSome else annMatchedOpt v p.ann

/-- A parameter fails the `_check_params` loop in the missing-required
way: no value (absent key or explicit `None`) and no default. -/
def missingKind (d : Dict Value) (p : Param) : Bool :=
  (match dictGet d p.name with
   | none => true
   | some v => v == Value.vNone) && p.default == none

/-- The call raised the unexpected-param `TypeError` of `_check_params`. -/
def isUnexpectedErr : Except Exc CallResult → Bool
  | Except.error (Exc.unexpectedParams _ _) => true
  | _ => false

/-- The call raised the missing-required-param `KeyError` of
`_check_params`. -/
def isMissingErr : Except Exc CallResult → Bool
  | Except.error (Exc.missingRequired _ _) => true
  | _ => false

/-- The merged call-time parameter dict after `delay_resolve` is popped:
the dict `__call__` validates and invokes with. -/
def resolvedOf (m : NestModule) (kwargs : Dict Value) : Dict Value :=
  dictRemove (mergedParams m kwargs) "delay_resolve"

/-- Query error shape: the `KeyError` of a failed lookup. -/
def isLookupErr : Except Exc QueryHit → Bool
  | Except.error (Exc.lookupFailed _) => true
  | _ => false

/-- Fixture: a callable with signature `(a : int, b : str = "x") -> str`,
a docstring and a constant body. -/
def fab : Func :=
  { name := "f"
    sig := { parameters :=
               [ { name := "a", ann := some Ty.tInt, default := none },
                 { name := "b", ann := some Ty.tStr,
                   default := some (Value.vStr "x") } ]
             ret := some Ty.tStr }
    doc := some "doc"
    impl := fun _ => Value.vStr "out" }

/-- Fixture: the registered Entry wrapping `fab`. -/
def mfab : NestModule :=
  mkModule fab (some "doc") [] []

/-- Fixture: a callable whose second parameter is `ctx : Context` without
a default, with every invariant satisfied. -/
def fC4 : Func :=
  { name := "g"
    sig := { parameters :=
               [ { name := "a", ann := some Ty.tInt, default := none },
                 { name := "ctx", ann := some Ty.tContext, default := none } ]
             ret := some Ty.tInt }
    doc := some "doc"
    impl := fun _ => Value.vInt 0 }

/-- Fixture: a callable whose first parameter is `ctx : Context`. -/
def fCtx : Func :=
  { name := "h"
    sig := { parameters :=
               [ { name := "ctx", ann := some Ty.tContext, default := none },
                 { name := "a", ann := some Ty.tInt, default := none } ]
             ret := some Ty.tInt }
    doc := some "doc"
    impl := fun _ => Value.vInt 0 }

/-- Fixture: a fully annotated callable whose docstring is the empty
string. -/
def fEmptyDoc : Func :=
  { name := "e"
    sig := { parameters := [ { name := "a", ann := some Ty.tInt, default := none } ]
             ret := some Ty.tInt }
    doc := some ""
    impl := fun _ => Value.vInt 0 }

/-- Fixture: a parameterless documented callable. -/
def f0 : Func :=
  { name := "z"
    sig := { parameters := [], ret := some Ty.tInt }
    doc := some "doc"
    impl := fun _ => Value.vInt 0 }

/-- Fixture: a stored Entry built from `f0`. -/
def m0 : NestModule :=
  mkModule f0 (some "doc") [] []

/-- Fixture: a loader state with one loaded unit `n/u` at mtime 5 that
produced the Entries `n/x` and `n/y`. -/
def stW : LoaderState :=
  { py_modules := [("n/u", (5, ["n/x", "n/y"]))]
    nest_modules := [("n/x", m0), ("n/y", m0)] }

/-- Fixture: a two-Entry catalog for the query-mode witnesses. -/
def nmW : Dict NestModule :=
  [("ns/alpha", m0), ("ns/beta", mfab)]

/-- Fixture regex engine: `rmW pat s` holds when `pat` is a prefix of
`s` (the anchored-prefix behaviour of `re.match` for literal
patterns). -/
def rmW (pat s : String) : Bool :=
  strStartsWith s pat

/-- Fixture glob engine: `gmW pat s` holds when the part of `pat` after
its leading star is a suffix of `s`. -/
def gmW (pat s : String) : Bool :=
  (strDrop pat 1).data.isSuffixOf s.data

/-- Fixture store holding two dict objects. -/
def storeW : Store :=
  { cells := [[("a", Value.vInt 1)], [("tag", Value.vStr "s")]] }

/-- Fixture store-level module whose params live in cell 0 and whose
metadata lives in cell 1. -/
def rmodW : RNestModule :=
  { func := fab, doc := some "doc", metaRef := 1, paramsRef := 0 }

/-- Success test for a unit-valued check. -/
def excOkU : Except Exc Unit → Bool
  | Except.ok _ => true
  | Except.error _ => false

/-- Success test for a registration. -/
def regOk : Except Exc NestModule → Bool
  | Except.ok _ => true
  | Except.error _ => false

/-- One parameter satisfies the definition invariants: annotated, and any
default matches the annotation. -/
def defParamOk (p : Param) : Bool :=
  match p.ann with
  | none => false
  | some t =>
    match p.default with
    | some d => is_annotation_matched d t
    | none => true

/-- The registration invariants as the code enforces them: all parameters
annotated with matching defaults, a declared return annotation, and a
present (possibly empty) docstring. -/
def defInvariantsOk (f : Func) : Bool :=
  f.sig.parameters.all defParamOk && f.sig.ret.isSome && f.doc.isSome

theorem dictGet_dictSet_self {α : Type} (d : Dict α) (k : String) (v : α) :
    dictGet (dictSet d k v) k = some v := by
  induction d with
  | nil => simp [dictGet, dictSet]
  | cons p rest ih =>
    by_cases h : p.1 == k
    · simp [dictGet, dictSet, h]
    · simp [dictGet, dictSet, h, ih]

theorem dictGet_dictSet_ne {α : Type} (d : Dict α) (k k2 : String) (v : α)
    (h : k2 ≠ k) : dictGet (dictSet d k v) k2 = dictGet d k2 := by
  induction d with
  | nil =>
    simp [dictGet, dictSet]
    intro h2
    exact absurd h2.symm h
  | cons p rest ih =>
    by_cases hp : p.1 == k
    · have hpk : p.1 = k := by exact beq_iff_eq.mp hp
      have : ¬ (k == k2) := by
        simp only [beq_iff_eq]
        intro hh
        exact h hh.symm
      simp [dictGet, dictSet, hp, this, hpk]
    · by_cases hq : p.1 == k2
      · simp [dictGet, dictSet, hp, hq]
      · simp [dictGet, dictSet, hp, hq, ih]

theorem dictGet_dictRemove_self {α : Type} (d : Dict α) (k : String) :
    dictGet (dictRemove d k) k = none := by
  induction d with
  | nil => simp [dictGet, dictRemove]
  | cons p rest ih =>
    by_cases h : p.1 == k
    · simpa [dictRemove, List.filter, h] using ih
    · simpa [dictRemove, List.filter, h, dictGet] using ih

theorem dictGet_dictRemove_ne {α : Type} (d : Dict α) (k k2 : String)
    (h : k2 ≠ k) : dictGet (dictRemove d k) k2 = dictGet d k2 := by
  induction d with
  | nil => simp [dictGet, dictRemove]
  | cons p rest ih =>
    by_cases hp : p.1 == k
    · have hpk : p.1 = k := beq_iff_eq.mp hp
      have hne : ¬ (p.1 == k2) := by
        simp only [beq_iff_eq, hpk]
        intro hh
        exact h hh.symm
      simp [dictRemove, List.filter, hp, dictGet, hne] at ih ⊢
      simpa [dictRemove] using ih
    · by_cases hq : p.1 == k2
      · simp [dictRemove, List.filter, hp, dictGet, hq]
      · simp [dictRemove, List.filter, hp, dictGet, hq] at ih ⊢
        simpa [dictRemove] using ih

theorem dictGet_removeKeys {α : Type} (ks : List String) (d : Dict α)
    (k : String) :
    dictGet (removeKeys d ks) k =
      if k ∈ ks then none else dictGet d k := by
  induction ks generalizing d with
  | nil => simp [removeKeys]
  | cons k0 rest ih =>
    simp only [removeKeys, List.foldl] at ih ⊢
    rw [ih]
    by_cases h : k = k0
    · subst h
      by_cases hmem : k ∈ rest
      · simp [hmem]
      · simp [hmem, dictGet_dictRemove_self]
    · rw [dictGet_dictRemove_ne _ _ _ h]
      by_cases hmem : k ∈ rest
      · simp [hmem]
      · simp [hmem, h]

theorem importFromPyModule_get_mem (ns : String)
    (bs : List (String × PyBinding)) (nm : Dict NestModule)
    (ids : List String) (k : String) (h : dictMem nm k = true) :
    dictGet (importFromPyModule ns bs nm ids).1 k = dictGet nm k := by
  induction bs generalizing nm ids with
  | nil => simp [importFromPyModule]
  | cons p rest ih =>
    match p with
    | (key, PyBinding.other) => simpa [importFromPyModule] using ih nm ids h
    | (key, PyBinding.nestMod m) =>
      by_cases hu : strStartsWith key "_"
      · simpa [importFromPyModule, hu] using ih nm ids h
      · by_cases hid : dictMem nm (encode_id ns key)
        · simpa [importFromPyModule, hu, hid] using ih nm ids h
        · have hne : k ≠ encode_id ns key := by
            intro hk
            rw [hk] at h
            exact absurd h (by simpa using hid)
          have hset : dictMem (dictSet nm (encode_id ns key) m) k = true := by
            simpa [dictMem, dictGet_dictSet_ne _ _ _ _ hne] using h
          have := ih (dictSet nm (encode_id ns key) m) (ids ++ [encode_id ns key]) hset
          simpa [importFromPyModule, hu, hid,
            dictGet_dictSet_ne _ _ _ _ hne] using this

theorem importFromPyModule_get_fresh (ns : String)
    (bs : List (String × PyBinding)) (nm : Dict NestModule)
    (ids : List String) (k : String) (h : dictGet nm k = none) :
    dictGet (importFromPyModule ns bs nm ids).1 k = firstNestBinding ns k bs := by
  induction bs generalizing nm ids with
  | nil => simpa [importFromPyModule, firstNestBinding]
  | cons p rest ih =>
    match p with
    | (key, PyBinding.other) =>
      simpa [importFromPyModule, firstNestBinding] using ih nm ids h
    | (key, PyBinding.nestMod m) =>
      by_cases hu : strStartsWith key "_"
      · simpa [importFromPyModule, firstNestBinding, hu] using ih nm ids h
      · by_cases hk : encode_id ns key == k
        · have hk2 : encode_id ns key = k := beq_iff_eq.mp hk
          have hid : dictMem nm (encode_id ns key) = false := by
            simp [dictMem, hk2, h]
          have hmem : dictMem (dictSet nm (encode_id ns key) m) k = true := by
            simp [dictMem, hk2, dictGet_dictSet_self]
          have := importFromPyModule_get_mem ns rest
            (dictSet nm (encode_id ns key) m) (ids ++ [encode_id ns key]) k hmem
          simp [importFromPyModule, firstNestBinding, hu, hid, hk]
          rw [this, hk2, dictGet_dictSet_self]
        · have hne : k ≠ encode_id ns key := by
            intro hh
            exact absurd (beq_iff_eq.mpr hh.symm) (by simpa using hk)
          by_cases hid : dictMem nm (encode_id ns key)
          · simpa [importFromPyModule, firstNestBinding, hu, hid, hk]
              using ih nm ids h
          · have hfresh : dictGet (dictSet nm (encode_id ns key) m) k = none := by
              rw [dictGet_dictSet_ne _ _ _ _ hne]
              exact h
            simpa [importFromPyModule, firstNestBinding, hu, hid, hk]
              using ih (dictSet nm (encode_id ns key) m)
                (ids ++ [encode_id ns key]) hfresh

theorem getD_append_self (l : List (Dict Value)) (d : Dict Value) :
    (l ++ [d]).getD l.length [] = d := by
  induction l with
  | nil => rfl
  | cons x rest ih => simp [ih]

theorem getD_append_lt (l : List (Dict Value)) (d : Dict Value) (r : Nat)
    (h : r < l.length) : (l ++ [d]).getD r [] = l.getD r [] := by
  induction l generalizing r with
  | nil => exact absurd h (Nat.not_lt_zero r)
  | cons x rest ih =>
    match r with
    | 0 => rfl
    | Nat.succ r2 =>
      have : r2 < rest.length := Nat.lt_of_succ_lt_succ h
      simpa using ih r2 this

theorem getD_set_ne (l : List (Dict Value)) (d : Dict Value) (i j : Nat)
    (h : i ≠ j) : (l.set i d).getD j [] = l.getD j [] := by
  induction l generalizing i j with
  | nil => simp
  | cons x rest ih =>
    match i, j with
    | 0, 0 => exact absurd rfl h
    | 0, Nat.succ j2 => rfl
    | Nat.succ i2, 0 => rfl
    | Nat.succ i2, Nat.succ j2 =>
      have : i2 ≠ j2 := fun hh => h (by rw [hh])
      simpa using ih i2 j2 this

theorem checkParamsLoop_ok (mname : String) (d : Dict Value)
    (ps : List Param) (h : ∀ p ∈ ps, paramFine d p = true) :
    checkParamsLoop mname d ps = Except.ok () := by
  induction ps with
  | nil => rfl
  | cons p rest ih =>
    have hp := h p (by simp)
    have hrest : ∀ q ∈ rest, paramFine d q = true :=
      fun q hq => h q (by simp [hq])
    cases hg : dictGet d p.name with
    | none =>
      have hp2 : p.default.isSome = true := by simpa [paramFine, hg] using hp
      simp [checkParamsLoop, hg, hp2, ih hrest]
    | some v =>
      by_cases hv : v = Value.vNone
      · subst hv
        have hp2 : p.default.isSome = true := by simpa [paramFine, hg] using hp
        simp [checkParamsLoop, hg, hp2, ih hrest]
      · have hp2 : annMatchedOpt v p.ann = true := by
          simpa [paramFine, hg, hv] using hp
        simp [checkParamsLoop, hg, hv, hp2, ih hrest]

theorem checkParamsLoop_missing (mname : String) (d : Dict Value)
    (ps : List Param)
    (hall : ∀ p ∈ ps, paramFine d p = false → missingKind d p = true)
    (hex : ∃ p ∈ ps, paramFine d p = false) :
    ∃ pn, checkParamsLoop mname d ps = Except.error (Exc.missingRequired pn mname) := by
  induction ps with
  | nil => simp at hex
  | cons p rest ih =>
    by_cases hp : paramFine d p = true
    · have hrest : ∀ q ∈ rest, paramFine d q = false → missingKind d q = true :=
        fun q hq => hall q (by simp [hq])
      have hexr : ∃ q ∈ rest, paramFine d q = false := by
        obtain ⟨q, hq, hqf⟩ := hex
        rcases List.mem_cons.mp hq with hq1 | hq2
        · rw [hq1] at hqf
          rw [hp] at hqf
          cases hqf
        · exact ⟨q, hq2, hqf⟩
      obtain ⟨pn, hpn⟩ := ih hrest hexr
      refine ⟨pn, ?_⟩
      cases hg : dictGet d p.name with
      | none =>
        have hp2 : p.default.isSome = true := by simpa [paramFine, hg] using hp
        simp [checkParamsLoop, hg, hp2, hpn]
      | some v =>
        by_cases hv : v = Value.vNone
        · subst hv
          have hp2 : p.default.isSome = true := by simpa [paramFine, hg] using hp
          simp [checkParamsLoop, hg, hp2, hpn]
        · have hp2 : annMatchedOpt v p.ann = true := by
            simpa [paramFine, hg, hv] using hp
          simp [checkParamsLoop, hg, hv, hp2, hpn]
    · have hpf : paramFine d p = false := by
        cases hd : paramFine d p
        · rfl
        · exact absurd hd hp
      have hmk := hall p (by simp) hpf
      have hdef : p.default = none := by
        cases hd : p.default
        · rfl
        · rw [missingKind, hd] at hmk; simp at hmk
      refine ⟨p.name, ?_⟩
      cases hg : dictGet d p.name with
      | none => simp [checkParamsLoop, hg, hdef]
      | some v =>
        have hv : v = Value.vNone := by
          by_cases hd : v = Value.vNone
          · exact hd
          · rw [missingKind, hg] at hmk
            simp [hd] at hmk
        subst hv
        simp [checkParamsLoop, hg, hdef]

theorem applyDefaultsLoop_present (ps : List Param) (d : Dict Value)
    (k : String) (v : Value) (h : dictGet d k = some v) :
    dictGet (applyDefaultsLoop ps d) k = some v := by
  induction ps generalizing d with
  | nil => simpa [applyDefaultsLoop]
  | cons p rest ih =>
    by_cases hm : dictMem d p.name
    · simpa [applyDefaultsLoop, hm] using ih d h
    · cases hd : p.default with
      | none => simpa [applyDefaultsLoop, hm, hd] using ih d h
      | some dv =>
        have hne : k ≠ p.name := by
          intro hk
          rw [hk] at h
          simp [dictMem, h] at hm
        have : dictGet (dictSet d p.name dv) k = some v := by
          rw [dictGet_dictSet_ne _ _ _ _ hne]
          exact h
        simpa [applyDefaultsLoop, hm, hd] using ih _ this

theorem pyJoinNonempty_of_mem (l : List String) (k : String) (hk : k ∈ l)
    (hne : l ≠ [""]) : pyJoinNonempty l = true := by
  match l with
  | [] => cases hk
  | [s] =>
    have hks : k = s := by simpa using hk
    have hs : s ≠ "" := by
      intro hh
      rw [hh] at hne
      exact hne rfl
    have : strIsEmpty s = false := by
      cases s with
      | mk data =>
        cases data with
        | nil => exact absurd rfl hs
        | cons c cs => rfl
    simp [pyJoinNonempty, this]
  | a :: b :: rest => rfl

theorem check_params_eq_loop (m : NestModule) (d : Dict Value)
    (h : pyJoinNonempty (unexpectedKeys m.func.sig d) = false) :
    check_params m d = checkParamsLoop m.func.name d m.func.sig.parameters := by
  simp [check_params, h]

theorem check_params_unexpected_eq (m : NestModule) (d : Dict Value)
    (h : pyJoinNonempty (unexpectedKeys m.func.sig d) = true) :
    check_params m d =
      Except.error (Exc.unexpectedParams (unexpectedKeys m.func.sig d) m.func.name) := by
  simp [check_params, h]

theorem invoke_ok (f : Func) (d : Dict Value)
    (h1 : ∀ k ∈ dictKeys d, (sigNames f.sig).contains k = true)
    (h2 : ∀ p ∈ f.sig.parameters, p.default = none → dictMem d p.name = true) :
    invoke f d = Except.ok (f.impl (applyDefaults f.sig d)) := by
  have ha : ((dictKeys d).any fun k => !(sigNames f.sig).contains k) = false := by
    cases hc : (dictKeys d).any fun k => !(sigNames f.sig).contains k
    · rfl
    · obtain ⟨k, hk, hkp⟩ := List.any_eq_true.mp hc
      rw [h1 k hk] at hkp
      simp at hkp
  have hb : (f.sig.parameters.any fun p =>
      p.default == none && !(dictMem d p.name)) = false := by
    cases hc : f.sig.parameters.any fun p => p.default == none && !(dictMem d p.name)
    · rfl
    · obtain ⟨p, hp, hpp⟩ := List.any_eq_true.mp hc
      have hdef : p.default = none := by
        cases hd : p.default
        · rfl
        · rw [hd] at hpp; simp at hpp
      rw [h2 p hp hdef] at hpp
      simp at hpp
  unfold invoke
  rw [ha, hb]
  simp

theorem dictGet_eq_none_of_forall {α : Type} (d : Dict α) (k : String)
    (h : ∀ q ∈ d, q.1 ≠ k) : dictGet d k = none := by
  induction d with
  | nil => rfl
  | cons p rest ih =>
    have hp : ¬ (p.1 == k) = true := by simpa using h p (by simp)
    simp [dictGet, hp]
    exact ih fun q hq => h q (by simp [hq])

theorem dictSet_fresh_append {α : Type} (d : Dict α) (k : String) (v : α)
    (h : dictGet d k = none) : dictSet d k v = d ++ [(k, v)] := by
  induction d with
  | nil => rfl
  | cons p rest ih =>
    by_cases hp : (p.1 == k) = true
    · simp [dictGet, hp] at h
    · simp [dictGet, hp] at h
      simp [dictSet, hp, ih h]

/-- C10: querying the catalog with the empty string falls through to the
wildcard branch and fails by indexing the first character of the key (an
IndexError), not with the documented zero-match LookupError: the lookup
operation is partial on the empty-string input. -/
theorem nest_C10 (nm : Dict NestModule) (rm gm : String → String → Bool) :
    getitem nm rm gm "" = Except.error Exc.indexError ∧
      isLookupErr (getitem nm rm gm "") = false := by
  exact ⟨rfl, rfl⟩

/-- C5 (amended): for every catalog state, a dollar-prefixed key returns a
clone of the Entry whose id equals the remainder exactly or raises
LookupError if absent; a key prefixed with the regex marker returns a
clone of the first id
in map order that the regex engine accepts, raising LookupError if none
match and flagging the non-fatal ambiguity warning exactly when more than
one matches; any other nonempty key is glob-matched after an implicit
star is prepended unless the key already starts with one, under the same
none/first/ambiguity policy; in all three modes the returned object is
the clone of the stored Entry.  The empty string is excluded: it raises
an IndexError instead (see the counterexample and C10). -/
theorem nest_C5 (nm : Dict NestModule) (rm gm : String → String → Bool)
    (key : String) :
    (strStartsWith key "$" = true →
      (∀ m0, dictGet nm (strDrop key 1) = some m0 →
        getitem nm rm gm key =
          Except.ok { found := cloneM m0 [], warned := false })
      ∧ (dictGet nm (strDrop key 1) = none →
        getitem nm rm gm key = Except.error (Exc.lookupFailed (strDrop key 1))))
  ∧ (strStartsWith key "$" = false → strStartsWith key "r/" = true →
      ((dictKeys nm).filter (rm (strDrop key 2)) = [] →
        getitem nm rm gm key = Except.error (Exc.lookupFailed (strDrop key 2)))
      ∧ (∀ k rest, (dictKeys nm).filter (rm (strDrop key 2)) = k :: rest →
        getitem nm rm gm key =
          Except.ok { found := cloneM (getStored nm k) [],
                      warned := !rest.isEmpty }))
  ∧ (strStartsWith key "$" = false → strStartsWith key "r/" = false →
      ∀ c cs, key.data = c :: cs →
      ((dictKeys nm).filter (gm (if c == '*' then key else "*" ++ key)) = [] →
        getitem nm rm gm key =
          Except.error (Exc.lookupFailed (if c == '*' then key else "*" ++ key)))
      ∧ (∀ k rest,
          (dictKeys nm).filter (gm (if c == '*' then key else "*" ++ key))
            = k :: rest →
        getitem nm rm gm key =
          Except.ok { found := cloneM (getStored nm k) [],
                      warned := !rest.isEmpty })) := by
  refine ⟨?_, ?_, ?_⟩
  · intro hd
    constructor
    · intro m0 hm
      simp [getitem, hd, hm]
    · intro hm
      simp [getitem, hd, hm]
  · intro hd hr
    constructor
    · intro hf
      simp [getitem, hd, hr, hf]
    · intro k rest hf
      simp [getitem, hd, hr, hf]
  · intro hd hr c cs hdata
    constructor
    · intro hf
      simp only [beq_iff_eq] at hf
      simp [getitem, hd, hr, hdata, hf]
    · intro k rest hf
      simp only [beq_iff_eq] at hf
      simp [getitem, hd, hr, hdata, hf]

/-- C5 counterexample: the claim quantifies over every query string, but
on the empty string the wildcard branch of the code indexes the first
character and raises an IndexError; no LookupError and no glob matching
happens, even with a catalog and engines under which the claim would
demand a successful glob match. -/
theorem nest_C5_cex :
    getitem nmW (fun _ _ => true) (fun _ _ => true) "" =
      Except.error Exc.indexError ∧
    isLookupErr (getitem nmW (fun _ _ => true) (fun _ _ => true) "") = false := by
  exact ⟨rfl, rfl⟩

/-- Witness for C5 on a concrete two-Entry catalog: an exact hit, an
exact miss, an ambiguous regex query returning the first match with the
warning flagged, and an implicit-star glob query returning a single
clone. -/
theorem nest_C5_witness :
    getitem nmW rmW gmW "$ns/alpha" =
      Except.ok { found := cloneM m0 [], warned := false }
  ∧ getitem nmW rmW gmW "$ns/zeta" = Except.error (Exc.lookupFailed "ns/zeta")
  ∧ getitem nmW rmW gmW "r/ns/" =
      Except.ok { found := cloneM m0 [], warned := true }
  ∧ getitem nmW rmW gmW "beta" =
      Except.ok { found := cloneM mfab [], warned := false } := by
  refine ⟨?_, ?_, ?_, ?_⟩
  · exact ((nest_C5 nmW rmW gmW "$ns/alpha").1 rfl).1 m0 rfl
  · exact ((nest_C5 nmW rmW gmW "$ns/zeta").1 rfl).2 rfl
  · exact ((nest_C5 nmW rmW gmW "r/ns/").2.1 rfl rfl).2 "ns/alpha" ["ns/beta"] rfl
  · exact ((nest_C5 nmW rmW gmW "beta").2.2 rfl rfl 'b' "eta".data rfl).2 "ns/beta" [] rfl

/-- C8: for every path, when no namespace is given the namespace name is
derived from the base name of the directory normalized by lowercasing and
mapping dash and dot to underscore; if that name or that absolute path is
already present in the persisted bindings the operation warns and leaves
the bindings unchanged; otherwise exactly the one new binding of the name
to the path is appended and persisted. -/
theorem nest_C8 (sp : Dict String) (path : String) (nso : Option String) :
    derive_namespace path none = format_namespace (basename path)
  ∧ ((∃ q ∈ sp, q.1 = derive_namespace path nso ∨ q.2 = path) →
      install_namespaces_from_path sp path nso = (sp, true))
  ∧ ((∀ q ∈ sp, q.1 ≠ derive_namespace path nso ∧ q.2 ≠ path) →
      install_namespaces_from_path sp path nso =
        (sp ++ [(derive_namespace path nso, path)], false)) := by
  refine ⟨rfl, ?_, ?_⟩
  · intro hex
    obtain ⟨q, hq, hcase⟩ := hex
    cases hfind : sp.find? (fun p => p.1 == derive_namespace path nso || p.2 == path) with
    | some q2 => simp [install_namespaces_from_path, hfind]
    | none =>
      have hnone := List.find?_eq_none.mp hfind q hq
      rcases hcase with h1 | h1 <;> simp [h1] at hnone
  · intro hall
    have hfind : sp.find? (fun p => p.1 == derive_namespace path nso || p.2 == path) = none := by
      apply List.find?_eq_none.mpr
      intro q hq
      obtain ⟨h1, h2⟩ := hall q hq
      simp [h1, h2]
    have hnone : dictGet sp (derive_namespace path nso) = none :=
      dictGet_eq_none_of_forall sp _ fun q hq => (hall q hq).1
    simp [install_namespaces_from_path, hfind,
      dictSet_fresh_append sp _ path hnone]

/-- Witness for C8: installing the directory My-Repo.X with no given name
binds the normalized name my_repo_x; repeating with the same name or the
same path warns and leaves the persisted bindings unchanged. -/
theorem nest_C8_witness :
    install_namespaces_from_path [] "/repos/My-Repo.X" none =
      ([("my_repo_x", "/repos/My-Repo.X")], false)
  ∧ install_namespaces_from_path [("my_repo_x", "/other")] "/repos/My-Repo.X" none =
      ([("my_repo_x", "/other")], true)
  ∧ install_namespaces_from_path [("other_ns", "/repos/My-Repo.X")] "/repos/My-Repo.X" none =
      ([("other_ns", "/repos/My-Repo.X")], true) := by
  refine ⟨?_, ?_, ?_⟩
  · exact ((nest_C8 [] "/repos/My-Repo.X" none).2.2 (by simp)).trans rfl
  · exact (nest_C8 [("my_repo_x", "/other")] "/repos/My-Repo.X" none).2.1
      ⟨("my_repo_x", "/other"), by simp, Or.inl rfl⟩
  · exact (nest_C8 [("other_ns", "/repos/My-Repo.X")] "/repos/My-Repo.X" none).2.1
      ⟨("other_ns", "/repos/My-Repo.X"), by simp, Or.inr rfl⟩

theorem checkDefParams_ok_iff (mname : String) (ps : List Param) :
    excOkU (checkDefParams mname ps) = ps.all defParamOk := by
  induction ps with
  | nil => rfl
  | cons p rest ih =>
    cases ha : p.ann with
    | none => simp [checkDefParams, defParamOk, ha, excOkU]
    | some t =>
      cases hd : p.default with
      | none => simpa [checkDefParams, defParamOk, ha, hd] using ih
      | some dv =>
        by_cases hm : is_annotation_matched dv t = true
        · simpa [checkDefParams, defParamOk, ha, hd, hm] using ih
        · have hm2 : is_annotation_matched dv t = false := by
            cases hx : is_annotation_matched dv t
            · rfl
            · exact absurd hx hm
          simp [checkDefParams, defParamOk, ha, hd, hm2, excOkU]

/-- C7 (amended): registration fails with a definition error exactly when
the callable has an unannotated parameter, a default incompatible with
its own annotation, no return annotation, or no docstring at all; every
check happens in the constructor, so none is deferred to call time.  A
docstring that is present but empty does not fail: the stored
documentation is the docstring concatenated with a newline and the
formatted metadata, which is not `None`. -/
theorem nest_C7 (f : Func) (nest_meta : Dict Value) (yamlText : String) :
    regOk (register f nest_meta yamlText) = defInvariantsOk f := by
  have hparams := checkDefParams_ok_iff f.name f.sig.parameters
  cases hcp : checkDefParams f.name f.sig.parameters with
  | error e =>
    rw [hcp] at hparams
    have hall : f.sig.parameters.all defParamOk = false := by
      simpa [excOkU] using hparams.symm
    cases hdoc : f.doc with
    | none =>
      simp [register, initModule, check_definition, mkModule, hdoc, hcp, regOk,
        defInvariantsOk, hall]
    | some d =>
      simp [register, initModule, check_definition, mkModule, hdoc, hcp, regOk,
        defInvariantsOk, hall]
  | ok u =>
    rw [hcp] at hparams
    have hall : f.sig.parameters.all defParamOk = true := by
      simpa [excOkU] using hparams.symm
    cases hdoc : f.doc with
    | none =>
      cases hret : f.sig.ret with
      | none =>
        simp [register, initModule, check_definition, mkModule, hdoc, hcp, hret,
          regOk, defInvariantsOk, hall]
      | some t =>
        simp [register, initModule, check_definition, mkModule, hdoc, hcp, hret,
          regOk, defInvariantsOk, hall]
    | some d =>
      cases hret : f.sig.ret with
      | none =>
        simp [register, initModule, check_definition, mkModule, hdoc, hcp, hret,
          regOk, defInvariantsOk, hall]
      | some t =>
        simp [register, initModule, check_definition, mkModule, hdoc, hcp, hret,
          regOk, defInvariantsOk, hall]

/-- C7 counterexample: a fully annotated callable whose docstring is
present but empty registers successfully, although the claim says that
empty documentation raises the definition error. -/
theorem nest_C7_cex :
    fEmptyDoc.doc = some "" ∧ regOk (register fEmptyDoc [] "") = true := by
  exact ⟨rfl, rfl⟩

/-- C4 (amended): the constructor auto-binds a fresh empty Context
instance only to the first declared parameter, only when that parameter
is named ctx and its annotation is the Context class or a subclass, and
it does so whether or not the parameter has a default; a Context-typed
parameter in any later position or under any other name is never
auto-bound, and then the bound parameters are exactly the copy of the
supplied ones. -/
theorem nest_C4 (f : Func) (doc : Option String) (meta params : Dict Value) :
    (∀ p ps, f.sig.parameters = p :: ps → p.name = "ctx" →
      p.ann = some Ty.tContext →
      dictGet (mkModule f doc meta params).params "ctx" = some Value.vContext)
  ∧ (∀ p ps, f.sig.parameters = p :: ps →
      (p.name == "ctx" && p.ann == some Ty.tContext) = false →
      (mkModule f doc meta params).params = merge_dict [] params)
  ∧ (f.sig.parameters = [] →
      (mkModule f doc meta params).params = merge_dict [] params) := by
  refine ⟨?_, ?_, ?_⟩
  · intro p ps hsig hname hann
    simp [mkModule, ctxAutoBind, hsig, hname, hann, dictGet_dictSet_self]
  · intro p ps hsig hcond
    simp [mkModule, ctxAutoBind, hsig, hcond]
  · intro hsig
    simp [mkModule, ctxAutoBind, hsig]

/-- C4 counterexample: a callable declaring a parameter ctx of type
Context without a default in second position; the claim demands the
auto-binding for it, but the constructor inspects only the first
parameter and binds nothing. -/
theorem nest_C4_cex :
    (fC4.sig.parameters.any fun p =>
      p.name == "ctx" && p.ann == some Ty.tContext && p.default == none) = true
  ∧ dictGet (mkModule fC4 (some "doc") [] []).params "ctx" = none := by
  exact ⟨rfl, rfl⟩

/-- Witness for C4: a first parameter named ctx annotated with Context is
auto-bound to the empty instance, and a callable whose first parameter is
not the ctx capability keeps exactly the supplied bound parameters. -/
theorem nest_C4_witness :
    dictGet (mkModule fCtx (some "doc") [] []).params "ctx" = some Value.vContext
  ∧ (mkModule fC4 (some "doc") [] []).params = merge_dict [] [] := by
  constructor
  · exact (nest_C4 fCtx (some "doc") [] []).1
      { name := "ctx", ann := some Ty.tContext, default := none }
      [ { name := "a", ann := some Ty.tInt, default := none } ] rfl rfl rfl
  · exact (nest_C4 fC4 (some "doc") [] []).2.1
      { name := "a", ann := some Ty.tInt, default := none }
      [ { name := "ctx", ann := some Ty.tContext, default := none } ] rfl rfl

/-- C6: a clone shares the callable, the docstring and the metadata
content, its bound parameters are rebuilt from the supplied set alone
(copied into a freshly allocated dict, with the constructor context
auto-binding applied), the fresh dict is a different object from the
original parameter dict, and afterwards writing a binding into either
parameter dict never changes the content of the other. -/
theorem nest_C6 (s : Store) (m : RNestModule) (ps : Dict Value)
    (hv : m.paramsRef < s.cells.length) :
    ((cloneRef s m ps).2.func = m.func ∧ (cloneRef s m ps).2.doc = m.doc)
  ∧ (cloneRef s m ps).1.read (cloneRef s m ps).2.metaRef =
      merge_dict [] (s.read m.metaRef)
  ∧ (cloneRef s m ps).1.read (cloneRef s m ps).2.paramsRef =
      ctxAutoBind m.func.sig (merge_dict [] ps)
  ∧ (cloneRef s m ps).2.paramsRef ≠ m.paramsRef
  ∧ (cloneRef s m ps).1.read m.paramsRef = s.read m.paramsRef
  ∧ (∀ k v, ((cloneRef s m ps).1.writeKey m.paramsRef k v).read
      (cloneRef s m ps).2.paramsRef =
        (cloneRef s m ps).1.read (cloneRef s m ps).2.paramsRef)
  ∧ (∀ k v, ((cloneRef s m ps).1.writeKey (cloneRef s m ps).2.paramsRef k v).read
      m.paramsRef = (cloneRef s m ps).1.read m.paramsRef) := by
  simp only [cloneRef, initRef, Store.alloc, Store.read, Store.writeKey]
  have hne : (s.cells ++ [merge_dict [] (s.cells.getD m.metaRef [])]).length ≠
      m.paramsRef := by
    simp
    omega
  have hlt : m.paramsRef <
      (s.cells ++ [merge_dict [] (s.cells.getD m.metaRef [])]).length := by
    simp
    omega
  refine ⟨?_, ?_, ?_, hne, ?_, ?_, ?_⟩
  · simp
  · rw [getD_append_lt _ _ _ (by simp), getD_append_self]
  · rw [getD_append_self]
  · rw [getD_append_lt _ _ _ hlt, getD_append_lt _ _ _ hv]
  · intro k v
    exact getD_set_ne _ _ _ _ fun hh => hne hh.symm
  · intro k v
    exact getD_set_ne _ _ _ _ hne

/-- Witness for C6 on a concrete store: the clone allocates a new
parameter dict holding exactly the supplied binding, and writing into
either parameter dict leaves the other unchanged. -/
theorem nest_C6_witness :
    (cloneRef storeW rmodW [("b", Value.vInt 7)]).2.paramsRef ≠ rmodW.paramsRef
  ∧ (cloneRef storeW rmodW [("b", Value.vInt 7)]).1.read
      (cloneRef storeW rmodW [("b", Value.vInt 7)]).2.paramsRef =
      [("b", Value.vInt 7)]
  ∧ ((cloneRef storeW rmodW [("b", Value.vInt 7)]).1.writeKey rmodW.paramsRef
      "c" (Value.vInt 9)).read
        (cloneRef storeW rmodW [("b", Value.vInt 7)]).2.paramsRef =
      (cloneRef storeW rmodW [("b", Value.vInt 7)]).1.read
        (cloneRef storeW rmodW [("b", Value.vInt 7)]).2.paramsRef
  ∧ ((cloneRef storeW rmodW [("b", Value.vInt 7)]).1.writeKey
      (cloneRef storeW rmodW [("b", Value.vInt 7)]).2.paramsRef
      "c" (Value.vInt 9)).read rmodW.paramsRef =
      (cloneRef storeW rmodW [("b", Value.vInt 7)]).1.read rmodW.paramsRef := by
  have h := nest_C6 storeW rmodW [("b", Value.vInt 7)] (by decide)
  refine ⟨h.2.2.2.1, ?_, h.2.2.2.2.2.1 "c" (Value.vInt 9),
    h.2.2.2.2.2.2 "c" (Value.vInt 9)⟩
  exact (h.2.2.1).trans rfl

/-- C1: reload is fail-safe.  For an already-loaded source unit whose
file modification time has increased, a failing re-execution leaves the
whole loader state (the Entry flat map and the stored unit record) exactly
as before, while a successful re-execution removes every previously
produced Entry id from the flat map and rebinds each such id to the first
matching Entry harvested from the new execution (absent when the new
source no longer defines it). -/
theorem nest_C1 (st : LoaderState) (uid ns : String) (ts oldTs : Nat)
    (oldIds : List String)
    (hrec : dictGet st.py_modules uid = some (oldTs, oldIds))
    (hts : oldTs < ts) :
    loadFile uid ts ns st ExecOutcome.failure = st
  ∧ (∀ bs k, k ∈ oldIds →
      dictGet (loadFile uid ts ns st (ExecOutcome.success bs)).nest_modules k =
        firstNestBinding ns k bs) := by
  have hskip : ¬ ts ≤ oldTs := Nat.not_le.mpr hts
  constructor
  · simp [loadFile, hrec, hskip, loadFileBody]
  · intro bs k hk
    simp only [loadFile, hrec, hskip, if_neg, loadFileBody]
    apply importFromPyModule_get_fresh
    rw [dictGet_removeKeys]
    simp [hk]

/-- Witness for C1 on a concrete loaded unit producing the Entries n/x
and n/y: a failing reload leaves the state untouched, and a successful
reload drops n/x when the new bindings no longer define it, or rebinds it
to the newly harvested Entry when they do. -/
theorem nest_C1_witness :
    loadFile "n/u" 6 "n" stW ExecOutcome.failure = stW
  ∧ dictGet (loadFile "n/u" 6 "n" stW
      (ExecOutcome.success [("z", PyBinding.nestMod mfab)])).nest_modules "n/x"
      = none
  ∧ dictGet (loadFile "n/u" 6 "n" stW
      (ExecOutcome.success [("x", PyBinding.nestMod mfab)])).nest_modules "n/x"
      = some mfab := by
  have h := nest_C1 stW "n/u" "n" 6 5 ["n/x", "n/y"] rfl (by omega)
  refine ⟨h.1, ?_, ?_⟩
  · exact (h.2 [("z", PyBinding.nestMod mfab)] "n/x" (by simp)).trans rfl
  · exact (h.2 [("x", PyBinding.nestMod mfab)] "n/x" (by simp)).trans rfl

theorem call_nil_eq (m : NestModule) (kwargs : Dict Value) :
    m.call [] kwargs =
      (if truthyOpt (dictGet (mergedParams m kwargs) "delay_resolve") then
        match checkAndInvoke m (resolvedOf m kwargs) with
        | Except.ok returns => afterReturns m returns
        | Except.error e =>
          if isKeyError e && msgHasNestModule e then
            Except.ok (CallResult.deferred (cloneM m (resolvedOf m kwargs)))
          else Except.error e
      else
        match checkAndInvoke m (resolvedOf m kwargs) with
        | Except.ok returns => afterReturns m returns
        | Except.error e => Except.error e) := by
  rfl

theorem call_unexpected_of (m : NestModule) (kwargs : Dict Value) (k : String)
    (hk : k ∈ unexpectedKeys m.func.sig (resolvedOf m kwargs))
    (hne : unexpectedKeys m.func.sig (resolvedOf m kwargs) ≠ [""]) :
    isUnexpectedErr (m.call [] kwargs) = true := by
  have hj : pyJoinNonempty (unexpectedKeys m.func.sig (resolvedOf m kwargs)) = true :=
    pyJoinNonempty_of_mem _ k hk hne
  have hcp := check_params_unexpected_eq m (resolvedOf m kwargs) hj
  rw [call_nil_eq]
  cases hflag : truthyOpt (dictGet (mergedParams m kwargs) "delay_resolve")
  · simp [checkAndInvoke, hcp, isUnexpectedErr]
  · simp [checkAndInvoke, hcp, isUnexpectedErr, isKeyError]

theorem call_missing_of (m : NestModule) (kwargs : Dict Value)
    (hj : pyJoinNonempty (unexpectedKeys m.func.sig (resolvedOf m kwargs)) = false)
    (hflag : truthyOpt (dictGet (mergedParams m kwargs) "delay_resolve") = false)
    (hall : ∀ q ∈ m.func.sig.parameters,
      paramFine (resolvedOf m kwargs) q = false →
      missingKind (resolvedOf m kwargs) q = true)
    (hex : ∃ q ∈ m.func.sig.parameters, paramFine (resolvedOf m kwargs) q = false) :
    isMissingErr (m.call [] kwargs) = true := by
  obtain ⟨pn, hpn⟩ := checkParamsLoop_missing m.func.name (resolvedOf m kwargs)
    m.func.sig.parameters hall hex
  have hcp : check_params m (resolvedOf m kwargs) =
      Except.error (Exc.missingRequired pn m.func.name) :=
    (check_params_eq_loop m _ hj).trans hpn
  rw [call_nil_eq]
  simp [hflag, checkAndInvoke, hcp, isMissingErr]

theorem call_ret_of (m : NestModule) (kwargs : Dict Value)
    (hun : unexpectedKeys m.func.sig (resolvedOf m kwargs) = [])
    (hfine : ∀ q ∈ m.func.sig.parameters, paramFine (resolvedOf m kwargs) q = true)
    (hret : annMatchedOpt
      (m.func.impl (applyDefaults m.func.sig (resolvedOf m kwargs)))
      m.func.sig.ret = true) :
    m.call [] kwargs = Except.ok (CallResult.ret
      (m.func.impl (applyDefaults m.func.sig (resolvedOf m kwargs)))) := by
  have hj : pyJoinNonempty (unexpectedKeys m.func.sig (resolvedOf m kwargs)) = false := by
    rw [hun]
    rfl
  have hcp : check_params m (resolvedOf m kwargs) = Except.ok () :=
    (check_params_eq_loop m _ hj).trans
      (checkParamsLoop_ok m.func.name _ m.func.sig.parameters hfine)
  have hkeys : ∀ k ∈ dictKeys (resolvedOf m kwargs),
      (sigNames m.func.sig).contains k = true := by
    intro k hk
    by_contra hc
    have hmem : k ∈ unexpectedKeys m.func.sig (resolvedOf m kwargs) := by
      rw [unexpectedKeys, List.mem_filter]
      exact ⟨hk, by simpa using hc⟩
    rw [hun] at hmem
    cases hmem
  have hdef : ∀ p ∈ m.func.sig.parameters, p.default = none →
      dictMem (resolvedOf m kwargs) p.name = true := by
    intro p hp hd
    have hfp := hfine p hp
    cases hg : dictGet (resolvedOf m kwargs) p.name with
    | none =>
      have : p.default.isSome = true := by simpa [paramFine, hg] using hfp
      rw [hd] at this
      cases this
    | some v => simp [dictMem, hg]
  have hinv := invoke_ok m.func (resolvedOf m kwargs) hkeys hdef
  rw [call_nil_eq]
  cases hflag : truthyOpt (dictGet (mergedParams m kwargs) "delay_resolve")
  · simp [checkAndInvoke, hcp, hinv, afterReturns, check_returns, hret]
  · simp [checkAndInvoke, hcp, hinv, afterReturns, check_returns, hret]

/-- C3 (amended): invocation validation.  A call supplying a keyword that
is not a schema parameter raises the unexpected-param error, unless the
empty string is the only such keyword (the emptiness test on the joined
name string misses that single case, validation passes it, and a generic
Python-level error is raised only when the wrapped callable is applied,
as the counterexample shows); a call leaving some parameter with no
schema default and no supplied or bound value, while every value it does
supply is acceptable, raises the missing-required-param error; and a call
that supplies an acceptable value for every non-defaulted parameter
succeeds, the declared schema defaults filling the remaining parameters
of the underlying application. -/
theorem nest_C3 (m : NestModule) (kwargs : Dict Value) :
    (∀ k, k ∈ unexpectedKeys m.func.sig (resolvedOf m kwargs) →
      unexpectedKeys m.func.sig (resolvedOf m kwargs) ≠ [""] →
      isUnexpectedErr (m.call [] kwargs) = true)
  ∧ (pyJoinNonempty (unexpectedKeys m.func.sig (resolvedOf m kwargs)) = false →
      truthyOpt (dictGet (mergedParams m kwargs) "delay_resolve") = false →
      (∀ q ∈ m.func.sig.parameters, paramFine (resolvedOf m kwargs) q = false →
        missingKind (resolvedOf m kwargs) q = true) →
      (∃ q ∈ m.func.sig.parameters, paramFine (resolvedOf m kwargs) q = false) →
      isMissingErr (m.call [] kwargs) = true)
  ∧ (unexpectedKeys m.func.sig (resolvedOf m kwargs) = [] →
      (∀ q ∈ m.func.sig.parameters, paramFine (resolvedOf m kwargs) q = true) →
      annMatchedOpt (m.func.impl (applyDefaults m.func.sig (resolvedOf m kwargs)))
        m.func.sig.ret = true →
      m.call [] kwargs = Except.ok (CallResult.ret
        (m.func.impl (applyDefaults m.func.sig (resolvedOf m kwargs))))) := by
  exact ⟨fun k hk hne => call_unexpected_of m kwargs k hk hne,
    fun hj hflag hall hex => call_missing_of m kwargs hj hflag hall hex,
    fun hun hfine hret => call_ret_of m kwargs hun hfine hret⟩

/-- C3 counterexample: calling with the empty string as the only
unexpected keyword.  The claim demands the unexpected-param validation
error, but the code computes the length of the comma-joined unexpected
names, which is zero for the sole empty name, so validation passes and
the call fails only inside the keyword application of the wrapped
callable, with a different (Python-level) TypeError. -/
theorem nest_C3_cex :
    NestModule.call mfab [] [("a", Value.vInt 1), ("", Value.vInt 2)] =
      Except.error (Exc.pyUnexpectedKw "f")
  ∧ isUnexpectedErr
      (NestModule.call mfab [] [("a", Value.vInt 1), ("", Value.vInt 2)]) = false := by
  exact ⟨rfl, rfl⟩

/-- Witness for C3 on the schema of two parameters a of int without
default and b of str defaulting to x: an unknown keyword c raises the
unexpected-param error, the empty call raises the missing-required
error for a, and supplying only a succeeds with the default filling b. -/
theorem nest_C3_witness :
    isUnexpectedErr (NestModule.call mfab [] [("c", Value.vInt 2)]) = true
  ∧ isMissingErr (NestModule.call mfab [] []) = true
  ∧ NestModule.call mfab [] [("a", Value.vInt 1)] =
      Except.ok (CallResult.ret (Value.vStr "out"))
  ∧ dictGet (applyDefaults mfab.func.sig (resolvedOf mfab [("a", Value.vInt 1)])) "b"
      = some (Value.vStr "x") := by
  refine ⟨?_, ?_, ?_, rfl⟩
  · exact (nest_C3 mfab [("c", Value.vInt 2)]).1 "c" (by decide) (by decide)
  · exact (nest_C3 mfab []).2.1 (by decide) (by decide) (by decide) (by decide)
  · exact ((nest_C3 mfab [("a", Value.vInt 1)]).2.2 (by decide) (by decide)
      (by decide)).trans rfl

/-- C2: deferred resolution.  When the defer-resolution flag is set among
the merged pre-bound plus call-time values, a validation outcome of
missing-required-param makes the call return a fresh clone carrying the
currently merged values (with the flag consumed) instead of invoking;
when validation and the keyword application succeed, the callable is
invoked immediately and its result is returned after the return-type
check. -/
theorem nest_C2 (m : NestModule) (args : List Value) (kwargs kw : Dict Value)
    (hbind : bindPositional m args kwargs = Except.ok kw)
    (hflag : truthyOpt (dictGet (mergedParams m kw) "delay_resolve") = true) :
    (∀ pn mn, check_params m (dictRemove (mergedParams m kw) "delay_resolve") =
        Except.error (Exc.missingRequired pn mn) →
      m.call args kwargs = Except.ok (CallResult.deferred
        (cloneM m (dictRemove (mergedParams m kw) "delay_resolve"))))
  ∧ (∀ r, check_params m (dictRemove (mergedParams m kw) "delay_resolve") =
        Except.ok () →
      invoke m.func (dictRemove (mergedParams m kw) "delay_resolve") =
        Except.ok r →
      annMatchedOpt r m.func.sig.ret = true →
      m.call args kwargs = Except.ok (CallResult.ret r)) := by
  constructor
  · intro pn mn hcp
    simp [NestModule.call, hbind, hflag, checkAndInvoke, hcp, isKeyError,
      msgHasNestModule]
  · intro r hcp hinv hret
    simp [NestModule.call, hbind, hflag, checkAndInvoke, hcp, hinv, afterReturns,
      check_returns, hret]

/-- Witness for C2: with the flag set and the required parameter a still
missing, the call returns the further-bindable clone; with a supplied,
the callable runs immediately and the value comes back through the
return-type check. -/
theorem nest_C2_witness :
    NestModule.call mfab [] [("delay_resolve", Value.vBool true)] =
      Except.ok (CallResult.deferred (cloneM mfab []))
  ∧ NestModule.call mfab []
      [("delay_resolve", Value.vBool true), ("a", Value.vInt 1)] =
      Except.ok (CallResult.ret (Value.vStr "out")) := by
  constructor
  · exact (nest_C2 mfab [] [("delay_resolve", Value.vBool true)]
      [("delay_resolve", Value.vBool true)] rfl rfl).1 "a" "f" rfl
  · exact (nest_C2 mfab []
      [("delay_resolve", Value.vBool true), ("a", Value.vInt 1)]
      [("delay_resolve", Value.vBool true), ("a", Value.vInt 1)] rfl rfl).2
      (Value.vStr "out") rfl rfl rfl

/-- C9: an explicitly supplied None value is treated during validation
exactly as if no value were supplied.  For a parameter without a schema
default, the call raises the missing-required-param error although a
value was provided; for a parameter with a default, the None passes
validation without any type-constraint check and None itself, not the
default, is what reaches the underlying callable. -/
theorem nest_C9 (m : NestModule) (kwargs : Dict Value) (p : Param)
    (hp : p ∈ m.func.sig.parameters)
    (hval : dictGet (resolvedOf m kwargs) p.name = some Value.vNone) :
    (p.default = none →
      pyJoinNonempty (unexpectedKeys m.func.sig (resolvedOf m kwargs)) = false →
      truthyOpt (dictGet (mergedParams m kwargs) "delay_resolve") = false →
      (∀ q ∈ m.func.sig.parameters, paramFine (resolvedOf m kwargs) q = false →
        missingKind (resolvedOf m kwargs) q = true) →
      isMissingErr (m.call [] kwargs) = true)
  ∧ (p.default.isSome = true →
      unexpectedKeys m.func.sig (resolvedOf m kwargs) = [] →
      (∀ q ∈ m.func.sig.parameters, paramFine (resolvedOf m kwargs) q = true) →
      annMatchedOpt (m.func.impl (applyDefaults m.func.sig (resolvedOf m kwargs)))
        m.func.sig.ret = true →
      m.call [] kwargs = Except.ok (CallResult.ret
        (m.func.impl (applyDefaults m.func.sig (resolvedOf m kwargs))))
      ∧ dictGet (applyDefaults m.func.sig (resolvedOf m kwargs)) p.name =
          some Value.vNone) := by
  constructor
  · intro hdef hj hflag hall
    have hpf : paramFine (resolvedOf m kwargs) p = false := by
      simp [paramFine, hval, hdef]
    exact call_missing_of m kwargs hj hflag hall ⟨p, hp, hpf⟩
  · intro hdef hun hfine hret
    refine ⟨call_ret_of m kwargs hun hfine hret, ?_⟩
    exact applyDefaultsLoop_present m.func.sig.parameters _ p.name Value.vNone hval

/-- Witness for C9 on the schema of a of int without default and b of
str defaulting to x: supplying a as None raises the missing-required
error for a even though a value was provided, while supplying b as None
alongside a valid a passes validation with no type check on the None (it
does not satisfy the str constraint) and delivers None for b, not the
default x, to the callable. -/
theorem nest_C9_witness :
    isMissingErr (NestModule.call mfab [] [("a", Value.vNone)]) = true
  ∧ NestModule.call mfab [] [("a", Value.vInt 1), ("b", Value.vNone)] =
      Except.ok (CallResult.ret (Value.vStr "out"))
  ∧ dictGet (applyDefaults mfab.func.sig
      (resolvedOf mfab [("a", Value.vInt 1), ("b", Value.vNone)])) "b" =
      some Value.vNone
  ∧ is_annotation_matched Value.vNone Ty.tStr = false := by
  refine ⟨?_, ?_, ?_, rfl⟩
  · exact (nest_C9 mfab [("a", Value.vNone)]
      { name := "a", ann := some Ty.tInt, default := none } (by decide) rfl).1
      rfl (by decide) rfl (by decide)
  · exact (((nest_C9 mfab [("a", Value.vInt 1), ("b", Value.vNone)]
      { name := "b", ann := some Ty.tStr, default := some (Value.vStr "x") }
      (by decide) rfl).2 rfl (by decide) (by decide) (by decide)).1).trans rfl
  · exact ((nest_C9 mfab [("a", Value.vInt 1), ("b", Value.vNone)]
      { name := "b", ann := some Ty.tStr, default := some (Value.vStr "x") }
      (by decide) rfl).2 rfl (by decide) (by decide) (by decide)).2

end NestSpec
